import Mathlib

/-!
# skLigero::Proof — the Ligero driver of libsnarc

A shallow embedding of `src/lib/libsnarc/src/skLigero.cpp`.  The driver is a
straight-line function: it loads a constraint system and its inputs, checks
local satisfiability, fixes the protocol parameters, calls the Ligero prover
and verifier of libiop and prints the verdict.

Everything the driver calls but does not define (the loader `R1CSLibiop`,
the field bootstrap, the prover and the verifier) is a field of `Env`; the
driver itself is the function `Proof`, which returns the ordered list of the
external calls and `printf` lines it performs together with the JSON value
it returns.
-/

namespace skLigero

/-! ## Data model -/

/-- Modelled from the spec: a field element is a canonical residue in `[0, p)`;
the type `libff::alt_bn128_Fr` is not under src/.  Values are naturals and
every operation reduces modulo the modulus supplied by the environment. -/
abbrev FieldT := Nat

/-- Modelled from the spec: a linear combination is a sparse list of
(variable index, coefficient) terms; variable index 0 is the constant 1. -/
abbrev linear_combination := List (Nat × FieldT)

/-- Modelled from the spec: a constraint is a triple `(A, B, C)` of linear
combinations. -/
structure r1cs_constraint where
  a : linear_combination
  b : linear_combination
  c : linear_combination
deriving DecidableEq, Repr

/-- Modelled from the spec: an R1CS is an ordered sequence of constraints plus
the counts of public-input and auxiliary variables.  A default-constructed
system (line 24 of the driver) is empty. -/
structure r1cs_constraint_system where
  primary_input_size : Nat
  auxiliary_input_size : Nat
  constraints : List r1cs_constraint
deriving DecidableEq, Repr

instance : Inhabited r1cs_constraint_system := ⟨⟨0, 0, []⟩⟩

abbrev r1cs_primary_input := List FieldT
abbrev r1cs_auxiliary_input := List FieldT

/-- Modelled from the spec: the full assignment `z = (1, public..., private...)`. -/
def full_assignment (primary_input : r1cs_primary_input)
    (auxiliary_input : r1cs_auxiliary_input) : List FieldT :=
  1 :: (primary_input ++ auxiliary_input)

/-- Modelled from the spec: evaluation of a linear combination is the dot
product of its coefficients with the assignment values, in the field. -/
def evaluate (p : Nat) (z : List FieldT) : linear_combination → FieldT
  | [] => 0
  | (i, coeff) :: rest => (coeff * z.getD i 0 + evaluate p z rest) % p

/-- Modelled from the spec: a constraint is satisfied iff `A(z) * B(z) = C(z)`. -/
def constraint_holds (p : Nat) (z : List FieldT) (k : r1cs_constraint) : Bool :=
  (evaluate p z k.a * evaluate p z k.b) % p == evaluate p z k.c % p

/-- Scan of the constraints from index `i` on: the index of the first one
that is violated. -/
def first_violated_from (p : Nat) (z : List FieldT) : Nat → List r1cs_constraint → Option Nat
  | _, [] => none
  | i, k :: rest =>
    if constraint_holds p z k then first_violated_from p z (i + 1) rest else some i

/-- Modelled from the spec: the index of the first violated constraint, if any
(section 4.1: "on failure, the index of the first violated constraint"). -/
def first_violated (p : Nat) (cs : r1cs_constraint_system)
    (primary_input : r1cs_primary_input) (auxiliary_input : r1cs_auxiliary_input) :
    Option Nat :=
  first_violated_from p (full_assignment primary_input auxiliary_input) 0 cs.constraints

/-- Modelled from the spec: `r1cs_constraint_system::is_satisfied` of libiop is
not under src/.  It evaluates every constraint against the assignment and
confirms `A(z) * B(z) == C(z)` for all of them; the value the driver tests on
line 34 is the bare boolean.  A variable index beyond the assignment reads
as 0 here; size checks on the assignment are not modelled. -/
def is_satisfied (p : Nat) (cs : r1cs_constraint_system)
    (primary_input : r1cs_primary_input) (auxiliary_input : r1cs_auxiliary_input) : Bool :=
  cs.constraints.all (constraint_holds p (full_assignment primary_input auxiliary_input))

/-! ## Parameters -/

/-- Modelled from the spec: the two evaluation-domain families of section 4.2
(the enumeration `field_subset_type` of libiop is not under src/). -/
inductive field_subset_type
  | affine_subspace_type
  | multiplicative_coset_type
deriving DecidableEq, Repr

/-- Modelled from the spec: the two soundness modes of section 4.2 (the
enumeration `LDT_reducer_soundness_type` of libiop is not under src/). -/
inductive LDT_reducer_soundness_type
  | proven
  | heuristic
deriving DecidableEq, Repr

/-- A non-negative binary floating-point value, `mantissa / 2 ^ scale`. -/
structure binary_float where
  mantissa : Nat
  scale : Nat
deriving DecidableEq, Repr

/-- The rational number a binary floating-point value stands for. -/
def binary_float.value (x : binary_float) : ℚ :=
  (x.mantissa : ℚ) / 2 ^ x.scale

/-- The least scale `s`, searched upwards from the given one, at which
`n / d * 2 ^ s` reaches `2 ^ (prec - 1)`, that is, at which the integer part
of the scaled quotient has `prec` bits. -/
def find_scale (prec n d : Nat) : Nat → Nat → Nat
  | 0, s => s
  | fuel + 1, s =>
    if 2 ^ (prec - 1) * d ≤ n * 2 ^ s then s else find_scale prec n d fuel (s + 1)

/-- Rounding of the quotient `n / d` (positive, below 1 and in the normal
range) to a significand of `prec` bits, to nearest with ties to even: the
conversion C++ applies to a decimal literal and to a narrowing assignment. -/
def round_to_nearest_even (prec n d : Nat) : binary_float :=
  let s := find_scale prec n d 1074 0
  let m := n * 2 ^ s / d
  let r := n * 2 ^ s % d
  { mantissa := if d < 2 * r ∨ (d = 2 * r ∧ m % 2 = 1) then m + 1 else m
    scale := s }

/-- The literal `0.001` of line 40: a `double`, the decimal `1 / 10 ^ 3`
rounded to 53 significant bits. -/
def literal_0_001 : binary_float :=
  round_to_nearest_even 53 1 (10 ^ 3)

/-- Assignment of a `double` to a `float` field: rounding to 24 significant
bits. -/
def to_float (x : binary_float) : binary_float :=
  round_to_nearest_even 24 x.mantissa (2 ^ x.scale)

/-- The six fields of `ligero_snark_parameters<FieldT>` the driver assigns
(lines 38-44); the structure itself is declared in libiop, not under src/.
The two sizes are unsigned (`size_t`), hence naturals; `height_width_ratio_`
is a `float`. -/
structure ligero_snark_parameters where
  security_level_ : Nat
  height_width_ratio_ : binary_float
  RS_extra_dimensions_ : Nat
  make_zk_ : Bool
  domain_type_ : field_subset_type
  LDT_reducer_soundness_type_ : LDT_reducer_soundness_type
deriving DecidableEq

/-- Lines 38-44 of the driver: the parameter object after the six
assignments.  Line 40 stores the `double` literal `0.001` in the `float`
field. -/
def parameters : ligero_snark_parameters where
  security_level_ := 128
  height_width_ratio_ := to_float literal_0_001
  RS_extra_dimensions_ := 2
  make_zk_ := true
  domain_type_ := field_subset_type.multiplicative_coset_type
  LDT_reducer_soundness_type_ := LDT_reducer_soundness_type.proven

/-- Modelled from the spec: the validity conditions of section 4.2, whose
violation is a ParameterError: `security_level` an integer at least 1,
`height_width_ratio` strictly between 0 and 1, `RS_extra_dimensions`
non-negative.  The driver itself performs no validation. -/
def parameters_valid (P : ligero_snark_parameters) : Prop :=
  1 ≤ P.security_level_ ∧ 0 < P.height_width_ratio_.value ∧
    P.height_width_ratio_.value < 1 ∧ 0 ≤ P.RS_extra_dimensions_

instance (P : ligero_snark_parameters) : Decidable (parameters_valid P) := by
  unfold parameters_valid; infer_instance

/-! ## JSON -/

/-- The value type `nlohmann::json`; a default-constructed value is `null`. -/
inductive json
  | null
  | boolean (b : Bool)
  | number (n : Int)
  | string (s : String)
  | array (items : List json)
  | object (members : List (String × json))

instance : Inhabited json := ⟨json.null⟩

/-! ## Environment: what the driver calls but does not define -/

/-- The external collaborators of the driver.  `L` is the state of the loader
object `R1CSLibiop<FieldT>`, `A` is `ligero_snark_argument<FieldT>`.
Functions that take C++ reference parameters return the new values of those
parameters next to their result. -/
structure Env (L A : Type) where
  /-- the modulus fixed by `alt_bn128_pp::init_public_params()` -/
  modulus : Nat
  /-- a default-constructed `R1CSLibiop<FieldT>` (line 22) -/
  r1cs : L
  /-- `r1cs.FromJsonl(filename, cs)`: the loader and `cs` afterwards -/
  FromJsonl : L → String → r1cs_constraint_system → L × r1cs_constraint_system
  /-- `r1cs.LoadInputs(file, primary_input, auxiliary_input)`: its boolean
  result and the two vectors afterwards -/
  LoadInputs : L → String → r1cs_primary_input → r1cs_auxiliary_input →
    Bool × r1cs_primary_input × r1cs_auxiliary_input
  ligero_snark_prover : r1cs_constraint_system → r1cs_primary_input →
    r1cs_auxiliary_input → ligero_snark_parameters → A
  ligero_snark_verifier : r1cs_constraint_system → r1cs_primary_input → A →
    ligero_snark_parameters → Bool

/-- One observable step of a run: an external call with its arguments, or a
line written by `printf` (the text without its terminating newline). -/
inductive Event (A : Type)
  | init_public_params
  | FromJsonl (filename : String)
  | LoadInputs (filename : String)
  | is_satisfied (cs : r1cs_constraint_system) (primary_input : r1cs_primary_input)
      (auxiliary_input : r1cs_auxiliary_input)
  | printf (line : String)
  | ligero_snark_prover (cs : r1cs_constraint_system) (primary_input : r1cs_primary_input)
      (auxiliary_input : r1cs_auxiliary_input) (P : ligero_snark_parameters)
  | ligero_snark_verifier (cs : r1cs_constraint_system) (primary_input : r1cs_primary_input)
      (argument : A) (P : ligero_snark_parameters)

/-- What a run of the driver does and returns. -/
structure Run (A : Type) where
  events : List (Event A)
  result : json

/-! ## The driver -/

/-- Lines 22-25: the constraint system after `r1cs.FromJsonl(r1cs_filename, cs)`. -/
def loaded_cs {L A : Type} (env : Env L A) (r1cs_filename : String) :
    r1cs_constraint_system :=
  (env.FromJsonl env.r1cs r1cs_filename default).2

/-- Lines 23-29: the result of `r1cs.LoadInputs(inputsFile, primary_input,
auxiliary_input)` on the two freshly constructed (empty) vectors. -/
def loaded_inputs {L A : Type} (env : Env L A) (r1cs_filename : String) :
    Bool × r1cs_primary_input × r1cs_auxiliary_input :=
  env.LoadInputs (env.FromJsonl env.r1cs r1cs_filename default).1 (r1cs_filename ++ ".in") [] []

/-- The function `skLigero::Proof` (lines 17-60). -/
def Proof {L A : Type} (env : Env L A) (r1cs_filename : String) (_trustedSetup : String) :
    Run A :=
  let r1cs := env.r1cs
  let inputsFile := r1cs_filename ++ ".in"
  let cs : r1cs_constraint_system := default
  let fj := env.FromJsonl r1cs r1cs_filename cs
  let r1cs := fj.1
  let cs := fj.2
  let primary_input : r1cs_primary_input := []
  let auxiliary_input : r1cs_auxiliary_input := []
  let li := env.LoadInputs r1cs inputsFile primary_input auxiliary_input
  let primary_input := li.2.1
  let auxiliary_input := li.2.2
  let out1 := if li.1 then "inputs are loaded" else "error with inputs file"
  let sat := is_satisfied env.modulus cs primary_input auxiliary_input
  let out2 := if !sat then [Event.printf "NOT SATISFIED!!!"] else []
  let argument := env.ligero_snark_prover cs primary_input auxiliary_input parameters
  let bit := env.ligero_snark_verifier cs primary_input argument parameters
  let proof : json := default
  let out3 := if bit == true then "PASS" else "verification FAILED"
  { events :=
      [Event.init_public_params, Event.FromJsonl r1cs_filename, Event.LoadInputs inputsFile,
        Event.printf out1, Event.is_satisfied cs primary_input auxiliary_input] ++ out2 ++
      [Event.ligero_snark_prover cs primary_input auxiliary_input parameters,
        Event.ligero_snark_verifier cs primary_input argument parameters,
        Event.printf out3]
    result := proof }

/-! ## Observations on a run -/

/-- The lines a run writes to standard output, in order. -/
def stdout {A : Type} : List (Event A) → List String
  | [] => []
  | Event.printf line :: rest => line :: stdout rest
  | _ :: rest => stdout rest

/-- The verdict bit of line 48 for a given environment and file. -/
def verdict {L A : Type} (env : Env L A) (r1cs_filename : String) : Bool :=
  env.ligero_snark_verifier (loaded_cs env r1cs_filename) (loaded_inputs env r1cs_filename).2.1
    (env.ligero_snark_prover (loaded_cs env r1cs_filename)
      (loaded_inputs env r1cs_filename).2.1 (loaded_inputs env r1cs_filename).2.2 parameters)
    parameters

/-- The file names handed to the loader, in order. -/
def files_read {A : Type} : List (Event A) → List String
  | [] => []
  | Event.FromJsonl filename :: rest => filename :: files_read rest
  | Event.LoadInputs filename :: rest => filename :: files_read rest
  | _ :: rest => files_read rest

/-- The parameter sets handed to the prover and to the verifier, in order. -/
def parameters_passed {A : Type} : List (Event A) → List ligero_snark_parameters
  | [] => []
  | Event.ligero_snark_prover _ _ _ P :: rest => P :: parameters_passed rest
  | Event.ligero_snark_verifier _ _ _ P :: rest => P :: parameters_passed rest
  | _ :: rest => parameters_passed rest

/-- Modelled from the spec: the error kinds of section 7. -/
inductive Error
  | FormatError
  | UnsatisfiedConstraintError
  | ParameterError
  | ProtocolError
deriving DecidableEq, Repr

/-- Modelled from the spec: parameter validation (section 4.2), which fails
with ParameterError exactly when a validity condition is violated. -/
def validate (P : ligero_snark_parameters) : Except Error Unit :=
  if parameters_valid P then Except.ok () else Except.error Error.ParameterError

/-! ## A concrete environment

A small file system and a transparent engine, used to evaluate the driver on
concrete inputs.  The field is the scalar field of alt_bn128, the `FieldT`
of line 19. -/

/-- The order of the scalar field `alt_bn128_Fr`. -/
def alt_bn128_r : Nat :=
  21888242871839275222246405745257275088548364400416034343698204186575808495617

/-- The system `x * x = y` of the spec's end-to-end example, with
`z = (1, y, x)`: one public input `y`, one private variable `x`. -/
def cs_square : r1cs_constraint_system :=
  { primary_input_size := 1
    auxiliary_input_size := 1
    constraints := [{ a := [(2, 1)], b := [(2, 1)], c := [(1, 1)] }] }

/-- Two constraints over `z = (1, y, x)`: `x * x = y` and `x * 1 = 3`. -/
def cs_two : r1cs_constraint_system :=
  { primary_input_size := 1
    auxiliary_input_size := 1
    constraints :=
      [{ a := [(2, 1)], b := [(2, 1)], c := [(1, 1)] },
       { a := [(2, 1)], b := [(0, 1)], c := [(0, 3)] }] }

/-- The constraint-system files of the concrete environment; any other name
is a missing file and leaves `cs` as it was. -/
def demo_FromJsonl (_r1cs : Unit) (filename : String) (cs : r1cs_constraint_system) :
    Unit × r1cs_constraint_system :=
  if filename = "square" ∨ filename = "square_neg" ∨ filename = "wrong" then ((), cs_square)
  else if filename = "two_a" ∨ filename = "two_b" then ((), cs_two)
  else ((), cs)

/-- The inputs files of the concrete environment; any other name is a
missing file: the result is `false` and the vectors are left as they were. -/
def demo_LoadInputs (_r1cs : Unit) (filename : String) (primary_input : r1cs_primary_input)
    (auxiliary_input : r1cs_auxiliary_input) :
    Bool × r1cs_primary_input × r1cs_auxiliary_input :=
  if filename = "square.in" then (true, [9], [3])
  else if filename = "square_neg.in" then (true, [9], [alt_bn128_r - 3])
  else if filename = "wrong.in" then (true, [9], [4])
  else if filename = "two_a.in" then (true, [9], [4])
  else if filename = "two_b.in" then (true, [16], [4])
  else (false, primary_input, auxiliary_input)

/-- A transparent engine: the argument lists, constraint by constraint,
whether the constraint holds on the prover's assignment. -/
def demo_prover (cs : r1cs_constraint_system) (primary_input : r1cs_primary_input)
    (auxiliary_input : r1cs_auxiliary_input) (_P : ligero_snark_parameters) : List Bool :=
  cs.constraints.map (constraint_holds alt_bn128_r (full_assignment primary_input auxiliary_input))

/-- The verifier of the transparent engine: one entry per constraint, all of
them `true`. -/
def demo_verifier (cs : r1cs_constraint_system) (_primary_input : r1cs_primary_input)
    (argument : List Bool) (_P : ligero_snark_parameters) : Bool :=
  argument.length == cs.constraints.length && argument.all id

/-- The concrete environment. -/
def demo : Env Unit (List Bool) :=
  { modulus := alt_bn128_r
    r1cs := ()
    FromJsonl := demo_FromJsonl
    LoadInputs := demo_LoadInputs
    ligero_snark_prover := demo_prover
    ligero_snark_verifier := demo_verifier }

/-- An engine whose verifier rejects everything, over the same files. -/
def demo_rejecting : Env Unit (List Bool) :=
  { demo with ligero_snark_verifier := fun _ _ _ _ => false }

/-! ## Auxiliary facts -/

/-- The run of the driver, event by event. -/
theorem Proof_events {L A : Type} (env : Env L A) (r1cs_filename trustedSetup : String) :
    (Proof env r1cs_filename trustedSetup).events =
      [Event.init_public_params, Event.FromJsonl r1cs_filename,
        Event.LoadInputs (r1cs_filename ++ ".in"),
        Event.printf (if (loaded_inputs env r1cs_filename).1 then "inputs are loaded"
          else "error with inputs file"),
        Event.is_satisfied (loaded_cs env r1cs_filename) (loaded_inputs env r1cs_filename).2.1
          (loaded_inputs env r1cs_filename).2.2] ++
      (if is_satisfied env.modulus (loaded_cs env r1cs_filename)
            (loaded_inputs env r1cs_filename).2.1 (loaded_inputs env r1cs_filename).2.2 = true
        then [] else [Event.printf "NOT SATISFIED!!!"]) ++
      [Event.ligero_snark_prover (loaded_cs env r1cs_filename)
          (loaded_inputs env r1cs_filename).2.1 (loaded_inputs env r1cs_filename).2.2 parameters,
        Event.ligero_snark_verifier (loaded_cs env r1cs_filename)
          (loaded_inputs env r1cs_filename).2.1
          (env.ligero_snark_prover (loaded_cs env r1cs_filename)
            (loaded_inputs env r1cs_filename).2.1 (loaded_inputs env r1cs_filename).2.2
            parameters) parameters,
        Event.printf (if verdict env r1cs_filename = true then "PASS"
          else "verification FAILED")] := by
  cases h : is_satisfied env.modulus (loaded_cs env r1cs_filename)
      (loaded_inputs env r1cs_filename).2.1 (loaded_inputs env r1cs_filename).2.2 <;>
    simp [Proof, loaded_cs, loaded_inputs, verdict] at h ⊢ <;> simp [h]

/-- The lines a run prints. -/
theorem stdout_Proof {L A : Type} (env : Env L A) (r1cs_filename trustedSetup : String) :
    stdout (Proof env r1cs_filename trustedSetup).events =
      (if (loaded_inputs env r1cs_filename).1 then "inputs are loaded"
        else "error with inputs file") ::
      ((if is_satisfied env.modulus (loaded_cs env r1cs_filename)
            (loaded_inputs env r1cs_filename).2.1 (loaded_inputs env r1cs_filename).2.2 = true
        then [] else ["NOT SATISFIED!!!"]) ++
      [if verdict env r1cs_filename = true then "PASS" else "verification FAILED"]) := by
  rw [Proof_events]
  cases is_satisfied env.modulus (loaded_cs env r1cs_filename)
      (loaded_inputs env r1cs_filename).2.1 (loaded_inputs env r1cs_filename).2.2 <;>
    simp [stdout]

/-- The scan finds nothing exactly when every constraint holds. -/
theorem first_violated_from_eq_none (p : Nat) (z : List FieldT) (ks : List r1cs_constraint)
    (i : Nat) :
    first_violated_from p z i ks = none ↔ ks.all (constraint_holds p z) = true := by
  induction ks generalizing i with
  | nil => simp [first_violated_from]
  | cons k rest ih =>
    by_cases hk : constraint_holds p z k = true
    · simp [first_violated_from, hk, ih]
    · simp [first_violated_from, hk]

/-- The scan returns the smallest violated index: the constraint at the
returned position is violated and every earlier one holds. -/
theorem first_violated_from_eq_some (p : Nat) (z : List FieldT) (ks : List r1cs_constraint)
    (i j : Nat) (h : first_violated_from p z i ks = some j) :
    ∃ n, j = i + n ∧ (ks.get? n).map (constraint_holds p z) = some false ∧
      ∀ m, m < n → (ks.get? m).map (constraint_holds p z) = some true := by
  induction ks generalizing i with
  | nil => simp [first_violated_from] at h
  | cons k rest ih =>
    by_cases hk : constraint_holds p z k = true
    · simp only [first_violated_from, hk, if_true] at h
      obtain ⟨n, hj, hn, hlt⟩ := ih (i + 1) h
      refine ⟨n + 1, by omega, by simpa using hn, ?_⟩
      intro m hm
      cases m with
      | zero => simp [hk]
      | succ m => simpa using hlt m (by omega)
    · simp only [first_violated_from, hk] at h
      refine ⟨0, ?_, ?_, ?_⟩
      · simp at h; omega
      · simpa using hk
      · intro m hm; omega

/-- A first violated index exists exactly when the satisfiability check fails. -/
theorem is_satisfied_eq_false_iff (p : Nat) (cs : r1cs_constraint_system)
    (primary_input : r1cs_primary_input) (auxiliary_input : r1cs_auxiliary_input) :
    is_satisfied p cs primary_input auxiliary_input = false ↔
      ∃ i, first_violated p cs primary_input auxiliary_input = some i := by
  unfold is_satisfied first_violated
  rw [← Option.isSome_iff_exists, ← Bool.not_eq_true, ← first_violated_from_eq_none p _ _ 0]
  cases first_violated_from p (full_assignment primary_input auxiliary_input) 0 cs.constraints <;>
    simp

/-- The value line 40 stores: the literal as a `double`, and that `double`
narrowed to `float`. -/
theorem height_width_ratio_stored :
    literal_0_001 = { mantissa := 4611686018427388, scale := 62 } ∧
    parameters.height_width_ratio_ = { mantissa := 8589935, scale := 33 } := by
  constructor <;> decide

/-- The parameter set of the driver meets the validity conditions. -/
theorem parameters_valid_parameters : parameters_valid parameters := by
  have h := height_width_ratio_stored.2
  unfold parameters_valid
  rw [h]
  refine ⟨by decide, ?_, ?_, Nat.zero_le _⟩ <;> norm_num [binary_float.value]

/-- The parameter sets a run hands to the prover and to the verifier. -/
theorem parameters_passed_Proof {L A : Type} (env : Env L A)
    (r1cs_filename trustedSetup : String) :
    parameters_passed (Proof env r1cs_filename trustedSetup).events =
      [parameters, parameters] := by
  rw [Proof_events]
  cases is_satisfied env.modulus (loaded_cs env r1cs_filename)
      (loaded_inputs env r1cs_filename).2.1 (loaded_inputs env r1cs_filename).2.2 <;>
    simp [parameters_passed]

/-! ## C1: the satisfiability check and the prover call -/

/-- C1, as stated, fails.  In the concrete environment the file `wrong` holds
`x * x = 9` with the witness `x = 4`: the satisfiability check is false, the
driver prints `NOT SATISFIED!!!`, and the next event is the prover call on
that very instance. -/
theorem C1_counterexample :
    is_satisfied demo.modulus cs_square [9] [4] = false ∧
    (Proof demo "wrong" "").events =
      [Event.init_public_params, Event.FromJsonl "wrong", Event.LoadInputs "wrong.in",
        Event.printf "inputs are loaded", Event.is_satisfied cs_square [9] [4],
        Event.printf "NOT SATISFIED!!!",
        Event.ligero_snark_prover cs_square [9] [4] parameters,
        Event.ligero_snark_verifier cs_square [9] [false] parameters,
        Event.printf "verification FAILED"] :=
  ⟨by decide, by rfl⟩

/-- C1, amended.  Whenever the satisfiability check on the loaded instance is
false, the driver prints `NOT SATISFIED!!!` right after the check and then
still calls the prover on that instance and the verifier on its argument: the
check is reported, it does not gate the prover call. -/
theorem C1_unsatisfied_run_still_proves {L A : Type} (env : Env L A)
    (r1cs_filename trustedSetup : String)
    (h : is_satisfied env.modulus (loaded_cs env r1cs_filename)
      (loaded_inputs env r1cs_filename).2.1 (loaded_inputs env r1cs_filename).2.2 = false) :
    (Proof env r1cs_filename trustedSetup).events =
      [Event.init_public_params, Event.FromJsonl r1cs_filename,
        Event.LoadInputs (r1cs_filename ++ ".in"),
        Event.printf (if (loaded_inputs env r1cs_filename).1 then "inputs are loaded"
          else "error with inputs file"),
        Event.is_satisfied (loaded_cs env r1cs_filename) (loaded_inputs env r1cs_filename).2.1
          (loaded_inputs env r1cs_filename).2.2,
        Event.printf "NOT SATISFIED!!!",
        Event.ligero_snark_prover (loaded_cs env r1cs_filename)
          (loaded_inputs env r1cs_filename).2.1 (loaded_inputs env r1cs_filename).2.2 parameters,
        Event.ligero_snark_verifier (loaded_cs env r1cs_filename)
          (loaded_inputs env r1cs_filename).2.1
          (env.ligero_snark_prover (loaded_cs env r1cs_filename)
            (loaded_inputs env r1cs_filename).2.1 (loaded_inputs env r1cs_filename).2.2
            parameters) parameters,
        Event.printf (if verdict env r1cs_filename = true then "PASS"
          else "verification FAILED")] := by
  rw [Proof_events, h]; simp

/-- The amended C1 at the file `wrong` of the concrete environment. -/
theorem C1_unsatisfied_run_still_proves_witness :
    is_satisfied demo.modulus (loaded_cs demo "wrong") (loaded_inputs demo "wrong").2.1
        (loaded_inputs demo "wrong").2.2 = false ∧
    (Proof demo "wrong" "setup").events =
      [Event.init_public_params, Event.FromJsonl "wrong", Event.LoadInputs "wrong.in",
        Event.printf "inputs are loaded", Event.is_satisfied cs_square [9] [4],
        Event.printf "NOT SATISFIED!!!",
        Event.ligero_snark_prover cs_square [9] [4] parameters,
        Event.ligero_snark_verifier cs_square [9] [false] parameters,
        Event.printf "verification FAILED"] :=
  ⟨by decide, C1_unsatisfied_run_still_proves demo "wrong" "setup" (by decide)⟩

/-! ## C2: the returned value of failing and successful runs -/

/-- C2, as stated, fails.  In the concrete environment the run on `square`
(inputs loaded, witness `x = 3` satisfied, verifier accepts) is successful and
three runs fail, one in each way: `nofile` (the inputs file does not load),
`wrong` (witness `x = 4` unsatisfied) and `square` under the rejecting
verifier.  All four return the same value. -/
theorem C2_counterexample :
    ((loaded_inputs demo "square").1 = true ∧
      is_satisfied demo.modulus (loaded_cs demo "square") (loaded_inputs demo "square").2.1
        (loaded_inputs demo "square").2.2 = true ∧
      verdict demo "square" = true) ∧
    (loaded_inputs demo "nofile").1 = false ∧
    is_satisfied demo.modulus (loaded_cs demo "wrong") (loaded_inputs demo "wrong").2.1
      (loaded_inputs demo "wrong").2.2 = false ∧
    verdict demo_rejecting "square" = false ∧
    (Proof demo "nofile" "").result = (Proof demo "square" "").result ∧
    (Proof demo "wrong" "").result = (Proof demo "square" "").result ∧
    (Proof demo_rejecting "square" "").result = (Proof demo "square" "").result :=
  ⟨⟨by decide, by decide, by decide⟩, by decide, by decide, by decide, rfl, rfl, rfl⟩

/-- C2, amended.  Any two runs return the same value, so the returned value
never tells a failing run from a successful one; each failure is reported on
standard output only: `error with inputs file` is printed exactly when the
inputs fail to load, `NOT SATISFIED!!!` exactly when the witness is
unsatisfied, `verification FAILED` exactly when the verifier returns false. -/
theorem C2_failures_are_only_printed {L A L2 A2 : Type} (env : Env L A) (env2 : Env L2 A2)
    (r1cs_filename trustedSetup r1cs_filename2 trustedSetup2 : String) :
    (Proof env r1cs_filename trustedSetup).result =
      (Proof env2 r1cs_filename2 trustedSetup2).result ∧
    ("error with inputs file" ∈ stdout (Proof env r1cs_filename trustedSetup).events ↔
      (loaded_inputs env r1cs_filename).1 = false) ∧
    ("NOT SATISFIED!!!" ∈ stdout (Proof env r1cs_filename trustedSetup).events ↔
      is_satisfied env.modulus (loaded_cs env r1cs_filename)
        (loaded_inputs env r1cs_filename).2.1 (loaded_inputs env r1cs_filename).2.2 = false) ∧
    ("verification FAILED" ∈ stdout (Proof env r1cs_filename trustedSetup).events ↔
      verdict env r1cs_filename = false) := by
  refine ⟨rfl, ?_, ?_, ?_⟩ <;> rw [stdout_Proof] <;>
    cases (loaded_inputs env r1cs_filename).1 <;>
    cases is_satisfied env.modulus (loaded_cs env r1cs_filename)
      (loaded_inputs env r1cs_filename).2.1 (loaded_inputs env r1cs_filename).2.2 <;>
    cases verdict env r1cs_filename <;> decide

/-! ## C3: a failed load of the inputs file -/

/-- C3, as stated, fails.  In the concrete environment neither `nofile` nor
`nofile.in` exists: `LoadInputs` returns false, the driver prints
`error with inputs file`, and then runs the satisfiability check, the prover
and the verifier on the empty instance and prints `PASS`. -/
theorem C3_counterexample :
    (loaded_inputs demo "nofile").1 = false ∧
    (Proof demo "nofile" "").events =
      [Event.init_public_params, Event.FromJsonl "nofile", Event.LoadInputs "nofile.in",
        Event.printf "error with inputs file", Event.is_satisfied default [] [],
        Event.ligero_snark_prover default [] [] parameters,
        Event.ligero_snark_verifier default [] [] parameters,
        Event.printf "PASS"] :=
  ⟨by decide, by rfl⟩

/-- C3, amended.  When `LoadInputs` returns false the driver prints
`error with inputs file` and carries on: the satisfiability check, the prover
and the verifier are executed on the loaded constraint system and on whatever
`LoadInputs` left in the two input vectors, and a verdict is printed. -/
theorem C3_load_failure_is_only_reported {L A : Type} (env : Env L A)
    (r1cs_filename trustedSetup : String)
    (h : (loaded_inputs env r1cs_filename).1 = false) :
    (Proof env r1cs_filename trustedSetup).events =
      [Event.init_public_params, Event.FromJsonl r1cs_filename,
        Event.LoadInputs (r1cs_filename ++ ".in"),
        Event.printf "error with inputs file",
        Event.is_satisfied (loaded_cs env r1cs_filename) (loaded_inputs env r1cs_filename).2.1
          (loaded_inputs env r1cs_filename).2.2] ++
      (if is_satisfied env.modulus (loaded_cs env r1cs_filename)
            (loaded_inputs env r1cs_filename).2.1 (loaded_inputs env r1cs_filename).2.2 = true
        then [] else [Event.printf "NOT SATISFIED!!!"]) ++
      [Event.ligero_snark_prover (loaded_cs env r1cs_filename)
          (loaded_inputs env r1cs_filename).2.1 (loaded_inputs env r1cs_filename).2.2 parameters,
        Event.ligero_snark_verifier (loaded_cs env r1cs_filename)
          (loaded_inputs env r1cs_filename).2.1
          (env.ligero_snark_prover (loaded_cs env r1cs_filename)
            (loaded_inputs env r1cs_filename).2.1 (loaded_inputs env r1cs_filename).2.2
            parameters) parameters,
        Event.printf (if verdict env r1cs_filename = true then "PASS"
          else "verification FAILED")] := by
  rw [Proof_events, h]; simp

/-- The amended C3 at the missing file `nofile` of the concrete environment. -/
theorem C3_load_failure_is_only_reported_witness :
    (loaded_inputs demo "nofile").1 = false ∧
    (Proof demo "nofile" "setup").events =
      [Event.init_public_params, Event.FromJsonl "nofile", Event.LoadInputs "nofile.in",
        Event.printf "error with inputs file", Event.is_satisfied default [] [],
        Event.ligero_snark_prover default [] [] parameters,
        Event.ligero_snark_verifier default [] [] parameters,
        Event.printf "PASS"] :=
  ⟨by decide, C3_load_failure_is_only_reported demo "nofile" "setup" (by decide)⟩

/-! ## C5: the parameter set of the driver -/

/-- C5, as stated, fails in one value.  In the run on the file `square` of the
concrete environment, as in every run, the prover and the verifier receive
the parameter set of lines 38-44, and its height/width ratio is not 1/1000:
no binary floating-point value is, and the `float` field holds
8589935 / 2^33. -/
theorem C5_counterexample :
    parameters_passed (Proof demo "square" "").events = [parameters, parameters] ∧
    parameters.height_width_ratio_ = { mantissa := 8589935, scale := 33 } ∧
    parameters.height_width_ratio_.value ≠ 1 / 1000 := by
  refine ⟨parameters_passed_Proof demo "square" "", height_width_ratio_stored.2, ?_⟩
  rw [height_width_ratio_stored.2]
  norm_num [binary_float.value]

/-- C5, amended.  In every run the prover and the verifier receive the same
parameter set, the fixed configuration of lines 38-44: security level 128,
2 extra Reed-Solomon dimensions, zero knowledge on, multiplicative coset
domain, proven soundness, and as height/width ratio the `float` nearest to
the literal 0.001, which is 8589935 / 2^33 and lies within 2^-34 of 1/1000.
That configuration meets every validity condition of the specification, so
validating it does not yield ParameterError.  The `double` value of the
literal, before it is narrowed to the field, lies strictly between 0 and 1
as well. -/
theorem C5_parameters_fixed_and_valid {L A : Type} (env : Env L A)
    (r1cs_filename trustedSetup : String) :
    parameters_passed (Proof env r1cs_filename trustedSetup).events =
      [parameters, parameters] ∧
    (parameters.security_level_ = 128 ∧
      parameters.height_width_ratio_.value = 8589935 / 2 ^ 33 ∧
      |parameters.height_width_ratio_.value - 1 / 1000| < 1 / 2 ^ 34 ∧
      parameters.RS_extra_dimensions_ = 2 ∧ parameters.make_zk_ = true ∧
      parameters.domain_type_ = field_subset_type.multiplicative_coset_type ∧
      parameters.LDT_reducer_soundness_type_ = LDT_reducer_soundness_type.proven) ∧
    (1 ≤ parameters.security_level_ ∧ 0 < parameters.height_width_ratio_.value ∧
      parameters.height_width_ratio_.value < 1 ∧ 0 ≤ parameters.RS_extra_dimensions_) ∧
    parameters_valid parameters ∧
    validate parameters = Except.ok () ∧
    (0 < literal_0_001.value ∧ literal_0_001.value < 1) := by
  have hv : parameters_valid parameters := parameters_valid_parameters
  have hr := height_width_ratio_stored.2
  have hd := height_width_ratio_stored.1
  refine ⟨parameters_passed_Proof env r1cs_filename trustedSetup, ?_, hv, hv, ?_, ?_⟩
  · refine ⟨rfl, ?_, ?_, rfl, rfl, rfl, rfl⟩
    · rw [hr]; norm_num [binary_float.value]
    · rw [hr, abs_lt]; constructor <;> norm_num [binary_float.value]
  · simp [validate, hv]
  · rw [hd]; constructor <;> norm_num [binary_float.value]

/-! ## C6: what the satisfiability report carries -/

/-- C6, as stated, fails.  In the concrete environment the files `two_a` and
`two_b` hold the system `x * x = y`, `x * 1 = 3` with `(y, x) = (9, 4)` and
`(16, 4)`: the first violated constraint is number 0 in the first run and
number 1 in the second, yet both runs print the same three lines and return
the same value, so neither the output nor the result identifies the index. -/
theorem C6_counterexample :
    (loaded_cs demo "two_a" = cs_two ∧ (loaded_inputs demo "two_a").2 = ([9], [4])) ∧
    (loaded_cs demo "two_b" = cs_two ∧ (loaded_inputs demo "two_b").2 = ([16], [4])) ∧
    first_violated demo.modulus cs_two [9] [4] = some 0 ∧
    first_violated demo.modulus cs_two [16] [4] = some 1 ∧
    stdout (Proof demo "two_a" "").events =
      ["inputs are loaded", "NOT SATISFIED!!!", "verification FAILED"] ∧
    stdout (Proof demo "two_b" "").events =
      ["inputs are loaded", "NOT SATISFIED!!!", "verification FAILED"] ∧
    (Proof demo "two_a" "").result = (Proof demo "two_b" "").result :=
  ⟨⟨by decide, by decide⟩, ⟨by decide, by decide⟩, by decide, by decide, by decide, by decide,
    rfl⟩

/-- C6, amended.  For every loaded instance that violates a constraint,
whatever the index `i` of the first violated one, the failure is reported by
the fixed line `NOT SATISFIED!!!` alone: the run prints the inputs line, that
line and the verdict line, and returns the null JSON value; no index appears
in the output or in the result. -/
theorem C6_unsatisfied_report_is_fixed_line {L A : Type} (env : Env L A)
    (r1cs_filename trustedSetup : String) (i : Nat)
    (h : first_violated env.modulus (loaded_cs env r1cs_filename)
      (loaded_inputs env r1cs_filename).2.1 (loaded_inputs env r1cs_filename).2.2 = some i) :
    stdout (Proof env r1cs_filename trustedSetup).events =
      [if (loaded_inputs env r1cs_filename).1 then "inputs are loaded"
          else "error with inputs file",
        "NOT SATISFIED!!!",
        if verdict env r1cs_filename = true then "PASS" else "verification FAILED"] ∧
    (Proof env r1cs_filename trustedSetup).result = json.null := by
  have hs := (is_satisfied_eq_false_iff _ _ _ _).2 ⟨i, h⟩
  refine ⟨?_, rfl⟩
  rw [stdout_Proof, hs]; simp

/-- The amended C6 at the file `two_b` of the concrete environment, whose
first violated constraint is number 1. -/
theorem C6_unsatisfied_report_is_fixed_line_witness :
    first_violated demo.modulus (loaded_cs demo "two_b") (loaded_inputs demo "two_b").2.1
        (loaded_inputs demo "two_b").2.2 = some 1 ∧
    stdout (Proof demo "two_b" "setup").events =
      ["inputs are loaded", "NOT SATISFIED!!!", "verification FAILED"] ∧
    (Proof demo "two_b" "setup").result = json.null :=
  ⟨by decide, C6_unsatisfied_report_is_fixed_line demo "two_b" "setup" 1 (by decide)⟩

/-! ## C7: the returned JSON value -/

/-- C7.  Proof serialization is unimplemented: whatever the environment, the
file and the outcomes of loading, checking, proving and verifying, the value
the driver returns is the default-constructed JSON value, `null`, which holds
nothing of the argument the prover produced. -/
theorem C7_result_is_null {L A : Type} (env : Env L A) (r1cs_filename trustedSetup : String) :
    (Proof env r1cs_filename trustedSetup).result = (default : json) ∧
    (Proof env r1cs_filename trustedSetup).result = json.null :=
  ⟨rfl, rfl⟩

/-! ## C8: the verifier call -/

/-- C8.  Every run ends with the prover call, the verifier call and the
verdict line, in this order; the verifier receives the constraint system, the
primary input and the parameter set of the prover call together with the
argument that call returned, and no auxiliary input.  So the verdict depends
on the auxiliary input only through the argument: two runs over the same
verifier whose constraint systems, primary inputs and arguments agree reach
the same verdict, whatever their auxiliary inputs. -/
theorem C8_verifier_call {L A : Type} (env : Env L A) (r1cs_filename trustedSetup : String) :
    (∃ before : List (Event A),
      (Proof env r1cs_filename trustedSetup).events = before ++
        [Event.ligero_snark_prover (loaded_cs env r1cs_filename)
            (loaded_inputs env r1cs_filename).2.1 (loaded_inputs env r1cs_filename).2.2
            parameters,
          Event.ligero_snark_verifier (loaded_cs env r1cs_filename)
            (loaded_inputs env r1cs_filename).2.1
            (env.ligero_snark_prover (loaded_cs env r1cs_filename)
              (loaded_inputs env r1cs_filename).2.1 (loaded_inputs env r1cs_filename).2.2
              parameters) parameters,
          Event.printf (if env.ligero_snark_verifier (loaded_cs env r1cs_filename)
              (loaded_inputs env r1cs_filename).2.1
              (env.ligero_snark_prover (loaded_cs env r1cs_filename)
                (loaded_inputs env r1cs_filename).2.1 (loaded_inputs env r1cs_filename).2.2
                parameters) parameters = true then "PASS" else "verification FAILED")] ∧
      parameters_passed before = []) ∧
    ∀ {L2 : Type} (env2 : Env L2 A) (r1cs_filename2 : String),
      env2.ligero_snark_verifier = env.ligero_snark_verifier →
      loaded_cs env2 r1cs_filename2 = loaded_cs env r1cs_filename →
      (loaded_inputs env2 r1cs_filename2).2.1 = (loaded_inputs env r1cs_filename).2.1 →
      env2.ligero_snark_prover (loaded_cs env2 r1cs_filename2)
          (loaded_inputs env2 r1cs_filename2).2.1 (loaded_inputs env2 r1cs_filename2).2.2
          parameters =
        env.ligero_snark_prover (loaded_cs env r1cs_filename)
          (loaded_inputs env r1cs_filename).2.1 (loaded_inputs env r1cs_filename).2.2
          parameters →
      verdict env2 r1cs_filename2 = verdict env r1cs_filename := by
  refine ⟨⟨[Event.init_public_params, Event.FromJsonl r1cs_filename,
        Event.LoadInputs (r1cs_filename ++ ".in"),
        Event.printf (if (loaded_inputs env r1cs_filename).1 then "inputs are loaded"
          else "error with inputs file"),
        Event.is_satisfied (loaded_cs env r1cs_filename) (loaded_inputs env r1cs_filename).2.1
          (loaded_inputs env r1cs_filename).2.2] ++
      (if is_satisfied env.modulus (loaded_cs env r1cs_filename)
            (loaded_inputs env r1cs_filename).2.1 (loaded_inputs env r1cs_filename).2.2 = true
        then [] else [Event.printf "NOT SATISFIED!!!"]), ?_, ?_⟩, ?_⟩
  · rw [Proof_events]; rfl
  · cases is_satisfied env.modulus (loaded_cs env r1cs_filename)
        (loaded_inputs env r1cs_filename).2.1 (loaded_inputs env r1cs_filename).2.2 <;>
      simp [parameters_passed]
  · intro L2 env2 r1cs_filename2 hv hcs hpi harg
    unfold verdict
    rw [harg, hv, hcs, hpi]

/-- C8 at the files `square` and `square_neg` of the concrete environment:
the same system and public input 9 with the witnesses `x = 3` and `x = -3`;
the auxiliary inputs differ, the arguments agree, and so do the verdicts. -/
theorem C8_verifier_call_witness :
    (loaded_inputs demo "square_neg").2.2 ≠ (loaded_inputs demo "square").2.2 ∧
    verdict demo "square_neg" = verdict demo "square" :=
  ⟨by decide,
    (C8_verifier_call demo "square" "setup").2 demo "square_neg" rfl (by decide) (by decide)
      (by decide)⟩

/-! ## C9: the verdict line -/

/-- C9.  The last thing a run does before returning is to print its verdict
line: the last line printed is `PASS` or `verification FAILED`, it is `PASS`
exactly when the verifier returned true and `verification FAILED` exactly
when it returned false, and in both cases the function returns its (null)
result to the caller. -/
theorem C9_verdict_line {L A : Type} (env : Env L A) (r1cs_filename trustedSetup : String) :
    (Proof env r1cs_filename trustedSetup).events.getLast? =
      some (Event.printf (if verdict env r1cs_filename = true then "PASS"
        else "verification FAILED")) ∧
    ((stdout (Proof env r1cs_filename trustedSetup).events).getLast? = some "PASS" ∨
      (stdout (Proof env r1cs_filename trustedSetup).events).getLast? =
        some "verification FAILED") ∧
    ((stdout (Proof env r1cs_filename trustedSetup).events).getLast? = some "PASS" ↔
      env.ligero_snark_verifier (loaded_cs env r1cs_filename)
        (loaded_inputs env r1cs_filename).2.1
        (env.ligero_snark_prover (loaded_cs env r1cs_filename)
          (loaded_inputs env r1cs_filename).2.1 (loaded_inputs env r1cs_filename).2.2
          parameters) parameters = true) ∧
    ((stdout (Proof env r1cs_filename trustedSetup).events).getLast? =
        some "verification FAILED" ↔
      env.ligero_snark_verifier (loaded_cs env r1cs_filename)
        (loaded_inputs env r1cs_filename).2.1
        (env.ligero_snark_prover (loaded_cs env r1cs_filename)
          (loaded_inputs env r1cs_filename).2.1 (loaded_inputs env r1cs_filename).2.2
          parameters) parameters = false) ∧
    (Proof env r1cs_filename trustedSetup).result = json.null := by
  have hl : (stdout (Proof env r1cs_filename trustedSetup).events).getLast? =
      some (if verdict env r1cs_filename = true then "PASS" else "verification FAILED") := by
    rw [stdout_Proof]
    cases is_satisfied env.modulus (loaded_cs env r1cs_filename)
        (loaded_inputs env r1cs_filename).2.1 (loaded_inputs env r1cs_filename).2.2 <;>
      simp
  have hv : verdict env r1cs_filename =
      env.ligero_snark_verifier (loaded_cs env r1cs_filename)
        (loaded_inputs env r1cs_filename).2.1
        (env.ligero_snark_prover (loaded_cs env r1cs_filename)
          (loaded_inputs env r1cs_filename).2.1 (loaded_inputs env r1cs_filename).2.2
          parameters) parameters := rfl
  rw [hl, ← hv]
  refine ⟨?_, ?_, ?_, ?_, rfl⟩
  · rw [Proof_events]
    cases is_satisfied env.modulus (loaded_cs env r1cs_filename)
        (loaded_inputs env r1cs_filename).2.1 (loaded_inputs env r1cs_filename).2.2 <;>
      simp
  · cases verdict env r1cs_filename <;> simp
  · cases verdict env r1cs_filename <;> simp
  · cases verdict env r1cs_filename <;> simp

/-! ## C10: the trustedSetup argument -/

/-- C10.  The second argument of the driver is never used: with the same
environment and the same file name, two runs that differ only in
`trustedSetup` perform the same events (the same external calls with the same
arguments and the same printed lines) and return the same value, and the
files handed to the loader are `r1cs_filename` and `r1cs_filename + ".in"`. -/
theorem C10_trustedSetup_has_no_effect {L A : Type} (env : Env L A)
    (r1cs_filename s1 s2 : String) :
    Proof env r1cs_filename s1 = Proof env r1cs_filename s2 ∧
    (Proof env r1cs_filename s1).events = (Proof env r1cs_filename s2).events ∧
    stdout (Proof env r1cs_filename s1).events = stdout (Proof env r1cs_filename s2).events ∧
    (Proof env r1cs_filename s1).result = (Proof env r1cs_filename s2).result ∧
    files_read (Proof env r1cs_filename s1).events = [r1cs_filename, r1cs_filename ++ ".in"] ∧
    files_read (Proof env r1cs_filename s2).events = [r1cs_filename, r1cs_filename ++ ".in"] := by
  refine ⟨rfl, rfl, rfl, rfl, ?_, ?_⟩ <;>
    (rw [Proof_events]
     cases is_satisfied env.modulus (loaded_cs env r1cs_filename)
        (loaded_inputs env r1cs_filename).2.1 (loaded_inputs env r1cs_filename).2.2 <;>
      simp [files_read])

end skLigero
